import Mathlib

/-!
Verification of the Task List Synchronizer of
`frontend/src/App.js`: a shallow embedding of the React component's
four state hooks (`tasks`, `newTask`, `loading`, `error`) and of the
four operations `fetchTasks`, `addTask`, `toggleTask`, `deleteTask`.

Each operation is an async JS function whose observable effect on local
state is a function of the prior state and of the outcome of its single
network call.  The outcome of a `fetch` is modelled by `Outcome`:
* `reject m`   — the fetch promise rejects (network unreachable); the
  thrown exception carries a transport-defined message `m`
  (e.g. a browser `TypeError` message such as "Failed to fetch");
* `notOk`      — a response arrives with `response.ok = false`
  (non-2xx); the code then throws its own fixed `Error` message;
* `badBody m`  — `response.json()` rejects (malformed body), the
  `SyntaxError` carrying a parser-defined message `m`;
* `ok data`    — a 2xx response with a well-formed body `data`.

The `catch (err) { setError(err.message) }` blocks store the message of
whatever was thrown, so the fixed message is stored only on the `notOk`
path; `reject`/`badBody` paths store the exception's own message.

Every operation is split into an `...Entry` part (the synchronous
prefix executed before `await fetch`) and a `...Resume` part (the code
run after the response is observed), with the whole operation being
their composition; this makes the state while the request is
outstanding available to the theorems about the busy flag and error
clearing.
-/

namespace TMS

/-- A task as held in the `tasks` array: `{id, title, completed}`. -/
structure Task where
  id : Nat
  title : String
  completed : Bool
deriving DecidableEq, Repr

/-- Outcome of one `fetch` call whose body, when well-formed, parses to `α`. -/
inductive Outcome (α : Type) where
  | reject (msg : String)
  | notOk
  | badBody (msg : String)
  | ok (data : α)
deriving DecidableEq, Repr

/-- Whether the fetch succeeded end to end. -/
def Outcome.isOk {α : Type} : Outcome α → Bool
  | .ok _ => true
  | _ => false

/-- Outcome of the DELETE call: its response body is never parsed
(`deleteTask` calls no `response.json()`), so a malformed body cannot fail it. -/
inductive DeleteOutcome where
  | reject (msg : String)
  | notOk
  | ok
deriving DecidableEq, Repr

/-- The component's local state: the four `useState` hooks of `App`. -/
structure AppState where
  tasks : List Task
  newTask : String
  loading : Bool
  error : Option String
deriving DecidableEq, Repr

/-- Synchronous prefix of `fetchTasks`: `setLoading(true); setError(null)`. -/
def fetchTasksEntry (s : AppState) : AppState :=
  { s with loading := true, error := none }

/-- Continuation of `fetchTasks` after the GET response is observed:
`if (!response.ok) throw ...; const data = await response.json(); setTasks(data)`,
`catch (err) setError(err.message)`, `finally setLoading(false)`. -/
def fetchTasksResume (s : AppState) : Outcome (List Task) → AppState
  | .reject m => { s with error := some m, loading := false }
  | .notOk => { s with error := some "Failed to fetch tasks", loading := false }
  | .badBody m => { s with error := some m, loading := false }
  | .ok data => { s with tasks := data, loading := false }

/-- The whole `fetchTasks` operation (the List operation). -/
def fetchTasks (s : AppState) (o : Outcome (List Task)) : AppState :=
  fetchTasksResume (fetchTasksEntry s) o

/-- The JSON body of the POST request: `{ title: newTask, completed: false }`. -/
structure CreateBody where
  title : String
  completed : Bool
deriving DecidableEq, Repr

/-- Whether JS `String.prototype.trim` strips a character: the ECMA
WhiteSpace characters (tab, vertical tab, form feed, space, no-break
space, BOM, and every Unicode Space_Separator code point) and the
LineTerminator characters. -/
def isJsWhitespace (c : Char) : Bool :=
  c == ' ' || c == '\t' || c == '\n' || c == '\r' ||
  c == '\x0b' || c == '\x0c' || c == '\u00A0' || c == '\uFEFF' ||
  c == '\u2028' || c == '\u2029' || c == '\u1680' ||
  (0x2000 ≤ c.toNat && c.toNat ≤ 0x200A) ||
  c == '\u202F' || c == '\u205F' || c == '\u3000'

/-- JS `String.prototype.trim`: strip leading and trailing whitespace. -/
def jsTrim (s : String) : String :=
  ⟨((s.data.dropWhile isJsWhitespace).reverse.dropWhile isJsWhitespace).reverse⟩

/-- The request `addTask` sends, if any: `if (!newTask.trim()) return;`
guards the whole body, so a blank buffer sends nothing. -/
def addTaskRequest (s : AppState) : Option CreateBody :=
  if jsTrim s.newTask = "" then none else some ⟨s.newTask, false⟩

/-- Synchronous prefix of `addTask` past the guard:
`setLoading(true); setError(null)`. -/
def addTaskEntry (s : AppState) : AppState :=
  { s with loading := true, error := none }

/-- Continuation of `addTask` after the POST response:
on success `setTasks([...tasks, data]); setNewTask('')`,
on throw `setError(err.message)`, `finally setLoading(false)`. -/
def addTaskResume (s : AppState) : Outcome Task → AppState
  | .reject m => { s with error := some m, loading := false }
  | .notOk => { s with error := some "Failed to add task", loading := false }
  | .badBody m => { s with error := some m, loading := false }
  | .ok data => { s with tasks := s.tasks ++ [data], newTask := "", loading := false }

/-- The whole `addTask` operation (the Create operation).  JS falsiness
of the trimmed string is exactly emptiness, hence the guard. -/
def addTask (s : AppState) (o : Outcome Task) : AppState :=
  if jsTrim s.newTask = "" then s else addTaskResume (addTaskEntry s) o

/-- Synchronous prefix of `toggleTask`: `setError(null)` (no `setLoading`). -/
def toggleTaskEntry (s : AppState) : AppState :=
  { s with error := none }

/-- The `completed` field of the PUT body: `{ completed: !completed }`. -/
def toggleRequestCompleted (completed : Bool) : Bool :=
  !completed

/-- Continuation of `toggleTask` after the PUT response:
on success `setTasks(tasks.map(t => t.id === id ? data : t))`,
on throw `setError(err.message)`; there is no `finally`. -/
def toggleTaskResume (s : AppState) (id : Nat) : Outcome Task → AppState
  | .reject m => { s with error := some m }
  | .notOk => { s with error := some "Failed to update task" }
  | .badBody m => { s with error := some m }
  | .ok data => { s with tasks := s.tasks.map (fun t => if t.id = id then data else t) }

/-- The whole `toggleTask` operation (the Toggle operation).  The
`completed` argument only shapes the request body
(`toggleRequestCompleted`); local state never reads it. -/
def toggleTask (s : AppState) (id : Nat) (completed : Bool) (o : Outcome Task) : AppState :=
  toggleTaskResume (toggleTaskEntry s) id o

/-- Synchronous prefix of `deleteTask`: `setError(null)` (no `setLoading`). -/
def deleteTaskEntry (s : AppState) : AppState :=
  { s with error := none }

/-- Continuation of `deleteTask` after the DELETE response:
on success `setTasks(tasks.filter(t => t.id !== id))`,
on throw `setError(err.message)`. -/
def deleteTaskResume (s : AppState) (id : Nat) : DeleteOutcome → AppState
  | .reject m => { s with error := some m }
  | .notOk => { s with error := some "Failed to delete task" }
  | .ok => { s with tasks := s.tasks.filter (fun t => t.id != id) }

/-- The whole `deleteTask` operation (the Delete operation). -/
def deleteTask (s : AppState) (id : Nat) (o : DeleteOutcome) : AppState :=
  deleteTaskResume (deleteTaskEntry s) id o

/-- The message a fetch-backed operation stores for each outcome: the
operation's fixed message on a non-2xx response, the thrown
exception's own message on rejection or parse failure, nothing on
success. -/
def failedMsg {α : Type} (fixed : String) : Outcome α → Option String
  | .reject m => some m
  | .notOk => some fixed
  | .badBody m => some m
  | .ok _ => none

/-- Same bookkeeping for the Delete operation's three-way outcome. -/
def deleteFailedMsg : DeleteOutcome → Option String
  | .reject m => some m
  | .notOk => some "Failed to delete task"
  | .ok => none

/-- Replacing by `data` every element whose `id` matches leaves a list
without any match unchanged. -/
theorem map_if_id_of_absent (l : List Task) (id : Nat) (data : Task)
    (h : ∀ t ∈ l, t.id ≠ id) :
    l.map (fun t => if t.id = id then data else t) = l := by
  induction l with
  | nil => rfl
  | cons a l ih =>
    simp only [List.map_cons]
    rw [if_neg (h a (List.mem_cons_self a l)),
      ih (fun t ht => h t (List.mem_cons_of_mem a ht))]

/-- Filtering out a given `id` leaves a list without any match unchanged. -/
theorem filter_ne_eq_of_absent (l : List Task) (id : Nat)
    (h : ∀ t ∈ l, t.id ≠ id) :
    l.filter (fun t => t.id != id) = l := by
  induction l with
  | nil => rfl
  | cons a l ih =>
    rw [List.filter_cons]
    simp [h a (List.mem_cons_self a l),
      ih (fun t ht => h t (List.mem_cons_of_mem a ht))]

/-- C3: a successful Create whose title trims to a non-empty string
appends the server-returned task object at the end of the collection
(all previously held tasks unchanged and in order), clears the input
buffer, and leaves the busy flag false afterwards. -/
theorem create_success_spec (s : AppState) (data : Task)
    (h : jsTrim s.newTask ≠ "") :
    (addTask s (Outcome.ok data)).tasks = s.tasks ++ [data]
    ∧ (addTask s (Outcome.ok data)).newTask = ""
    ∧ (addTask s (Outcome.ok data)).loading = false := by
  simp [addTask, addTaskEntry, addTaskResume, h]

/-- Witness for `create_success_spec` at the spec's own example: buffer
"buy milk", server response `{id:2, title:"buy milk", completed:false}`. -/
theorem create_success_witness :
    (addTask ⟨[⟨1, "a", false⟩], "buy milk", false, none⟩
        (Outcome.ok ⟨2, "buy milk", false⟩)).tasks = [⟨1, "a", false⟩] ++ [⟨2, "buy milk", false⟩]
    ∧ (addTask ⟨[⟨1, "a", false⟩], "buy milk", false, none⟩
        (Outcome.ok ⟨2, "buy milk", false⟩)).newTask = ""
    ∧ (addTask ⟨[⟨1, "a", false⟩], "buy milk", false, none⟩
        (Outcome.ok ⟨2, "buy milk", false⟩)).loading = false :=
  create_success_spec ⟨[⟨1, "a", false⟩], "buy milk", false, none⟩
    ⟨2, "buy milk", false⟩ (by decide)

/-- C4: when the buffer trims to the empty string, Create sends no
request and, whatever outcome the (never-sent) request would have had,
changes nothing at all. -/
theorem create_blank_noop (s : AppState) (h : jsTrim s.newTask = "") :
    addTaskRequest s = none ∧ ∀ o : Outcome Task, addTask s o = s := by
  constructor
  · simp [addTaskRequest, h]
  · intro o
    simp [addTask, h]

/-- Witness for `create_blank_noop` on a whitespace-only buffer and on
an ideographic-space buffer (stripped by JS trim). -/
theorem create_blank_noop_witness :
    addTaskRequest ⟨[], "   ", false, none⟩ = none
    ∧ addTask ⟨[], "   ", false, none⟩ Outcome.notOk = ⟨[], "   ", false, none⟩
    ∧ addTaskRequest ⟨[], "\u3000", false, none⟩ = none :=
  ⟨(create_blank_noop ⟨[], "   ", false, none⟩ (by decide)).1,
   (create_blank_noop ⟨[], "   ", false, none⟩ (by decide)).2 Outcome.notOk,
   (create_blank_noop ⟨[], "\u3000", false, none⟩ (by decide)).1⟩

/-- C9: a successful List replaces the collection wholesale with the
response, so with the server-side collection unchanged a second List is
the identity on the whole state: List is idempotent. -/
theorem list_idempotent (s : AppState) (S : List Task) :
    (fetchTasks s (Outcome.ok S)).tasks = S
    ∧ fetchTasks (fetchTasks s (Outcome.ok S)) (Outcome.ok S) = fetchTasks s (Outcome.ok S) :=
  ⟨rfl, rfl⟩

/-- C5: for a Toggle on a collection containing the id, success replaces
the matching task by the full server-returned object, leaves every other
task in place unchanged, and the collection's length is unchanged under
every outcome. -/
theorem toggle_success_spec (s : AppState) (id : Nat) (c : Bool) (data : Task)
    (h : ∃ t ∈ s.tasks, t.id = id) :
    (∀ o : Outcome Task, (toggleTask s id c o).tasks.length = s.tasks.length)
    ∧ (∀ (i : Nat) (t : Task), s.tasks[i]? = some t → t.id = id →
        (toggleTask s id c (Outcome.ok data)).tasks[i]? = some data)
    ∧ (∀ (i : Nat) (t : Task), s.tasks[i]? = some t → t.id ≠ id →
        (toggleTask s id c (Outcome.ok data)).tasks[i]? = some t) := by
  refine ⟨?_, ?_, ?_⟩
  · intro o
    cases o <;> simp [toggleTask, toggleTaskEntry, toggleTaskResume]
  · intro i t hi ht
    simp [toggleTask, toggleTaskEntry, toggleTaskResume, List.getElem?_map, hi, ht]
  · intro i t hi ht
    simp [toggleTask, toggleTaskEntry, toggleTaskResume, List.getElem?_map, hi, ht]

/-- Witness for `toggle_success_spec`: toggling id 1 on a two-task
collection replaces slot 0 with the server object and keeps slot 1. -/
theorem toggle_success_witness :
    (toggleTask ⟨[⟨1, "a", false⟩, ⟨2, "b", false⟩], "", false, none⟩ 1 false
        (Outcome.ok ⟨1, "a", true⟩)).tasks.length
      = ([⟨1, "a", false⟩, ⟨2, "b", false⟩] : List Task).length
    ∧ (toggleTask ⟨[⟨1, "a", false⟩, ⟨2, "b", false⟩], "", false, none⟩ 1 false
        (Outcome.ok ⟨1, "a", true⟩)).tasks[0]? = some ⟨1, "a", true⟩
    ∧ (toggleTask ⟨[⟨1, "a", false⟩, ⟨2, "b", false⟩], "", false, none⟩ 1 false
        (Outcome.ok ⟨1, "a", true⟩)).tasks[1]? = some ⟨2, "b", false⟩ := by
  have h := toggle_success_spec ⟨[⟨1, "a", false⟩, ⟨2, "b", false⟩], "", false, none⟩ 1 false
    ⟨1, "a", true⟩ (by decide)
  exact ⟨h.1 (Outcome.ok ⟨1, "a", true⟩), h.2.1 0 ⟨1, "a", false⟩ rfl rfl,
    h.2.2 1 ⟨2, "b", false⟩ rfl (by decide)⟩

/-- C6: a successful Delete of a present id leaves no task with that id,
and the remaining tasks are exactly the other tasks, in their original
order and with their original values (a sublist containing every
non-matching task). -/
theorem delete_success_spec (s : AppState) (id : Nat)
    (h : ∃ t ∈ s.tasks, t.id = id) :
    (∀ t ∈ (deleteTask s id DeleteOutcome.ok).tasks, t.id ≠ id)
    ∧ List.Sublist (deleteTask s id DeleteOutcome.ok).tasks s.tasks
    ∧ (∀ t ∈ s.tasks, t.id ≠ id → t ∈ (deleteTask s id DeleteOutcome.ok).tasks) := by
  refine ⟨?_, ?_, ?_⟩
  · intro t ht
    simp [deleteTask, deleteTaskEntry, deleteTaskResume, List.mem_filter] at ht
    exact ht.2
  · simpa [deleteTask, deleteTaskEntry, deleteTaskResume] using
      List.filter_sublist s.tasks
  · intro t ht hne
    simp [deleteTask, deleteTaskEntry, deleteTaskResume, List.mem_filter, ht, hne]

/-- Witness for `delete_success_spec`: the surviving task of a concrete
two-task collection is still present after deleting id 1. -/
theorem delete_success_witness :
    (⟨2, "b", true⟩ : Task)
      ∈ (deleteTask ⟨[⟨1, "a", false⟩, ⟨2, "b", true⟩], "", false, none⟩ 1
          DeleteOutcome.ok).tasks := by
  have h := delete_success_spec ⟨[⟨1, "a", false⟩, ⟨2, "b", true⟩], "", false, none⟩ 1 (by decide)
  exact h.2.2 ⟨2, "b", true⟩ (by decide) (by decide)

/-- C10: Toggle or Delete with an id matching no local task, on a
successful response, leaves the collection exactly unchanged (the map
replaces nothing, the filter removes nothing), and no error is set. -/
theorem absent_id_noop (s : AppState) (id : Nat) (c : Bool) (data : Task)
    (h : ∀ t ∈ s.tasks, t.id ≠ id) :
    (toggleTask s id c (Outcome.ok data)).tasks = s.tasks
    ∧ (toggleTask s id c (Outcome.ok data)).error = none
    ∧ (deleteTask s id DeleteOutcome.ok).tasks = s.tasks
    ∧ (deleteTask s id DeleteOutcome.ok).error = none := by
  refine ⟨?_, rfl, ?_, rfl⟩
  · simpa [toggleTask, toggleTaskEntry, toggleTaskResume] using
      map_if_id_of_absent s.tasks id data h
  · simpa [deleteTask, deleteTaskEntry, deleteTaskResume] using
      filter_ne_eq_of_absent s.tasks id h

/-- Witness for `absent_id_noop`: id 1 absent from a one-task collection. -/
theorem absent_id_noop_witness :
    (toggleTask ⟨[⟨2, "b", false⟩], "", false, some "old"⟩ 1 false
        (Outcome.ok ⟨1, "x", true⟩)).tasks = [⟨2, "b", false⟩]
    ∧ (toggleTask ⟨[⟨2, "b", false⟩], "", false, some "old"⟩ 1 false
        (Outcome.ok ⟨1, "x", true⟩)).error = none
    ∧ (deleteTask ⟨[⟨2, "b", false⟩], "", false, some "old"⟩ 1 DeleteOutcome.ok).tasks
        = [⟨2, "b", false⟩]
    ∧ (deleteTask ⟨[⟨2, "b", false⟩], "", false, some "old"⟩ 1 DeleteOutcome.ok).error = none :=
  absent_id_noop ⟨[⟨2, "b", false⟩], "", false, some "old"⟩ 1 false ⟨1, "x", true⟩ (by decide)

/-- C7: the busy flag is set on entry by List and by Create (when its
guard passes), is reset on completion by both whatever the outcome, and
is never touched by Toggle or Delete. -/
theorem busy_flag_spec (s : AppState) (id : Nat) (c : Bool) :
    (fetchTasksEntry s).loading = true
    ∧ (∀ o : Outcome (List Task), (fetchTasks s o).loading = false)
    ∧ (addTaskEntry s).loading = true
    ∧ (∀ o : Outcome Task, jsTrim s.newTask ≠ "" → (addTask s o).loading = false)
    ∧ (∀ o : Outcome Task, (toggleTask s id c o).loading = s.loading)
    ∧ (∀ o : DeleteOutcome, (deleteTask s id o).loading = s.loading) := by
  refine ⟨rfl, ?_, rfl, ?_, ?_, ?_⟩
  · intro o
    cases o <;> rfl
  · intro o hs
    cases o <;> simp [addTask, addTaskEntry, addTaskResume, hs]
  · intro o
    cases o <;> rfl
  · intro o
    cases o <;> rfl

/-- Witness for `busy_flag_spec`: the startup List (blank buffer) sets
and resets busy, a failed Create with a non-blank buffer resets it, and
Toggle leaves it. -/
theorem busy_flag_witness :
    (fetchTasksEntry ⟨[], "", false, none⟩).loading = true
    ∧ (fetchTasks ⟨[], "", false, none⟩ (Outcome.ok [])).loading = false
    ∧ (addTask ⟨[], "x", false, none⟩ Outcome.notOk).loading = false
    ∧ (toggleTask ⟨[], "", false, none⟩ 0 false Outcome.notOk).loading
        = (⟨[], "", false, none⟩ : AppState).loading := by
  have h := busy_flag_spec ⟨[], "", false, none⟩ 0 false
  have h' := busy_flag_spec ⟨[], "x", false, none⟩ 0 false
  exact ⟨h.1, h.2.1 (Outcome.ok []), h'.2.2.2.1 Outcome.notOk (by decide),
    h.2.2.2.2.1 Outcome.notOk⟩

/-- C8: every operation clears the stored error in its synchronous
prefix, before its network request is made (each full operation is by
definition its `...Resume` applied to its `...Entry` state, so the
clearing precedes the outcome). -/
theorem error_cleared_spec (s : AppState) :
    (fetchTasksEntry s).error = none
    ∧ (addTaskEntry s).error = none
    ∧ (toggleTaskEntry s).error = none
    ∧ (deleteTaskEntry s).error = none :=
  ⟨rfl, rfl, rfl, rfl⟩

/-- C1 counterexample: a Create whose fetch promise rejects stores the
thrown exception's own message (a browser supplies e.g. "Failed to
fetch"), not the operation's fixed message "Failed to add task" — the
collection is indeed unchanged, but the stored message refutes the
claim at this input. -/
theorem failed_mutation_cex :
    (addTask ⟨[], "x", false, none⟩ (Outcome.reject "Failed to fetch")).tasks = []
    ∧ (addTask ⟨[], "x", false, none⟩ (Outcome.reject "Failed to fetch")).error
        ≠ some "Failed to add task" := by
  exact ⟨by decide, by decide⟩

/-- C1 amended: every failed Create, Toggle or Delete leaves the
collection exactly as it was; the stored message is the operation's
fixed one when the failure is a non-2xx response, and the thrown
exception's own message when the request rejects or the body fails to
parse (`failedMsg`/`deleteFailedMsg`). -/
theorem failed_mutation_spec :
    (∀ (s : AppState) (o : Outcome Task), jsTrim s.newTask ≠ "" → o.isOk = false →
        (addTask s o).tasks = s.tasks
        ∧ (addTask s o).error = failedMsg "Failed to add task" o)
    ∧ (∀ (s : AppState) (id : Nat) (c : Bool) (o : Outcome Task), o.isOk = false →
        (toggleTask s id c o).tasks = s.tasks
        ∧ (toggleTask s id c o).error = failedMsg "Failed to update task" o)
    ∧ (∀ (s : AppState) (id : Nat) (o : DeleteOutcome), o ≠ DeleteOutcome.ok →
        (deleteTask s id o).tasks = s.tasks
        ∧ (deleteTask s id o).error = deleteFailedMsg o) := by
  refine ⟨?_, ?_, ?_⟩
  · intro s o hs ho
    cases o <;>
      simp_all [addTask, addTaskEntry, addTaskResume, failedMsg, Outcome.isOk]
  · intro s id c o ho
    cases o <;>
      simp_all [toggleTask, toggleTaskEntry, toggleTaskResume, failedMsg, Outcome.isOk]
  · intro s id o ho
    cases o <;>
      simp_all [deleteTask, deleteTaskEntry, deleteTaskResume, deleteFailedMsg]

/-- Witness for `failed_mutation_spec`: a non-2xx Create failure leaves
the one-task collection intact and stores the fixed message. -/
theorem failed_mutation_witness :
    (addTask ⟨[⟨1, "a", false⟩], "x", false, none⟩ Outcome.notOk).tasks = [⟨1, "a", false⟩]
    ∧ (addTask ⟨[⟨1, "a", false⟩], "x", false, none⟩ Outcome.notOk).error
        = failedMsg "Failed to add task" (Outcome.notOk : Outcome Task) :=
  failed_mutation_spec.1 ⟨[⟨1, "a", false⟩], "x", false, none⟩ Outcome.notOk (by decide) rfl

/-- C2 counterexample: a List whose fetch promise rejects stores the
transport exception's message, not the fixed "Failed to fetch tasks",
so the stored error is not chosen solely by which operation failed. -/
theorem error_taxonomy_cex :
    (fetchTasks ⟨[], "", false, none⟩
        (Outcome.reject "NetworkError when attempting to fetch resource.")).error
      ≠ some "Failed to fetch tasks" := by
  decide

/-- C2 amended: each operation stores its fixed message exactly when the
failure is a non-2xx response; a rejected fetch or an unparsable body
stores the underlying exception's message, and success stores nothing
(`failedMsg`/`deleteFailedMsg` per operation). -/
theorem error_taxonomy_spec :
    (∀ (s : AppState) (o : Outcome (List Task)),
        (fetchTasks s o).error = failedMsg "Failed to fetch tasks" o)
    ∧ (∀ (s : AppState) (o : Outcome Task), jsTrim s.newTask ≠ "" →
        (addTask s o).error = failedMsg "Failed to add task" o)
    ∧ (∀ (s : AppState) (id : Nat) (c : Bool) (o : Outcome Task),
        (toggleTask s id c o).error = failedMsg "Failed to update task" o)
    ∧ (∀ (s : AppState) (id : Nat) (o : DeleteOutcome),
        (deleteTask s id o).error = deleteFailedMsg o) := by
  refine ⟨?_, ?_, ?_, ?_⟩
  · intro s o
    cases o <;> rfl
  · intro s o hs
    cases o <;> simp [addTask, addTaskEntry, addTaskResume, failedMsg, hs]
  · intro s id c o
    cases o <;> rfl
  · intro s id o
    cases o <;> rfl

/-- Witness for `error_taxonomy_spec`: a non-2xx Create failure stores
the fixed Create message. -/
theorem error_taxonomy_witness :
    (addTask ⟨[], "x", false, none⟩ Outcome.notOk).error
      = failedMsg "Failed to add task" (Outcome.notOk : Outcome Task) :=
  error_taxonomy_spec.2.1 ⟨[], "x", false, none⟩ Outcome.notOk (by decide)

end TMS
